import Mathlib

/-!
Shallow embedding of the nf-e library core (document model, enums, key and
check-digit generator, builder, field-level codec, config store) and proofs
about the claims of its specification.

Modelling conventions:
- Rust f64 values are modelled by exact rationals.  The fixed-precision
  renderings used by the code are modelled by an explicit decimal formatter.
- A Rust panic is modelled by an Option layer: a function that can panic
  returns none exactly where the source panics.
- Typed Rust Result errors are modelled by Except.
- XML structs are modelled at the field level: an ordered association list of
  element names and their textual content, which is what the serde field
  emission in the source produces.
-/

namespace NfE

/-- utils.rs: left_pad.  If the input is at least the requested length it is
returned unchanged, otherwise it is left padded with the pad character. -/
def left_pad (input : String) (totalLength : Nat) (padChar : Char) : String :=
  if input.length ≥ totalLength then input
  else String.mk (List.replicate (totalLength - input.length) padChar) ++ input

/-- Exactly prec decimal digits of n, most significant first
(the zero padded fractional part a Rust fixed precision format produces). -/
def natFixedDigits (prec : Nat) (n : Nat) : String :=
  String.mk ((List.range prec).reverse.map fun i => Nat.digitChar (n / 10 ^ i % 10))

/-- Rounding to the nearest integer, halves away from zero on nonnegative
input; models the decimal rounding of the Rust fixed precision formatter on
the finite values the claims evaluate (which are exact, so no tie occurs). -/
def roundNearest (q : ℚ) : ℤ := ⌊q + 1 / 2⌋

/-- Model of the Rust fixed precision format of a finite f64 value with
prec digits after the decimal point. -/
def formatFixed (prec : Nat) (q : ℚ) : String :=
  let scaled : Nat := (roundNearest (|q| * (10 : ℚ) ^ prec)).toNat
  let ip := scaled / 10 ^ prec
  let fp := scaled % 10 ^ prec
  (if q < 0 then "-" else "") ++ toString ip ++ "." ++ natFixedDigits prec fp

/-- Digit by digit accumulation of an unsigned decimal number; any non
digit character is a parse failure. -/
def digitsToNatAux : List Char → Nat → Option Nat
  | [], acc => some acc
  | c :: cs, acc =>
    if c.isDigit then digitsToNatAux cs (acc * 10 + (c.toNat - 48)) else none

/-- Parse of an unsigned decimal integer (str::parse on the digit strings
the codec produces). -/
def strToNat? (s : String) : Option Nat :=
  match s.data with
  | [] => none
  | cs => digitsToNatAux cs 0

/-- Split a character list at its first decimal point. -/
def splitOnDot : List Char → List Char × Option (List Char)
  | [] => ([], none)
  | c :: rest =>
    if c = '.' then ([], some rest)
    else
      let (a, b) := splitOnDot rest
      (c :: a, b)

/-- Decimal parser for the f64 strings the decoder reads: optional sign,
integer digits, optional decimal point and fractional digits.  (Models
str::parse of f64 on the decimal strings the codec produces and
consumes.) -/
def parseF64 (s : String) : Option ℚ :=
  let core (cs : List Char) : Option ℚ :=
    match splitOnDot cs with
    | (ip, none) => (strToNat? (String.mk ip)).map fun n => (n : ℚ)
    | (ip, some fp) =>
      match strToNat? (String.mk ip), strToNat? (String.mk fp) with
      | some n, some f => some ((n : ℚ) + (f : ℚ) / (10 : ℚ) ^ fp.length)
      | _, _ => none
  match s.data with
  | '-' :: rest => (core rest).map (fun q => -q)
  | cs => core cs

/-- Parse of an unsigned decimal integer bounded by a Rust integer width. -/
def parseBounded (bound : Nat) (s : String) : Option Nat :=
  (strToNat? s).bind fun n => if n ≤ bound then some n else none

def parseU8 : String → Option Nat := parseBounded 255
def parseU32 : String → Option Nat := parseBounded 4294967295

/-! ## states.rs -/

structure City where
  code : Nat
  name : String
deriving DecidableEq

inductive State where
  | Rondonia | Acre | Amazonas | Roraima | Para | Amapa | Tocantins
  | Maranhao | Piaui | Ceara | RioGrandeDoNorte | Paraiba | Pernambuco
  | Alagoas | Sergipe | Bahia | MinasGerais | EspiritoSanto | RioDeJaneiro
  | SaoPaulo | Parana | SantaCatarina | RioGrandeDoSul | MatoGrossoDoSul
  | MatoGrosso | Goias | DistritoFederal
deriving DecidableEq

/-- The explicit discriminants of the State enum in states.rs. -/
def State.code : State → Nat
  | .Rondonia => 11 | .Acre => 12 | .Amazonas => 13 | .Roraima => 14
  | .Para => 15 | .Amapa => 16 | .Tocantins => 17 | .Maranhao => 21
  | .Piaui => 22 | .Ceara => 23 | .RioGrandeDoNorte => 24 | .Paraiba => 25
  | .Pernambuco => 26 | .Alagoas => 27 | .Sergipe => 28 | .Bahia => 29
  | .MinasGerais => 31 | .EspiritoSanto => 32 | .RioDeJaneiro => 33
  | .SaoPaulo => 35 | .Parana => 41 | .SantaCatarina => 42
  | .RioGrandeDoSul => 43 | .MatoGrossoDoSul => 50 | .MatoGrosso => 51
  | .Goias => 52 | .DistritoFederal => 53

/-- TryFrom u8 for State. -/
def State.try_from (value : Nat) : Except String State :=
  match value with
  | 11 => .ok .Rondonia | 12 => .ok .Acre | 13 => .ok .Amazonas
  | 14 => .ok .Roraima | 15 => .ok .Para | 16 => .ok .Amapa
  | 17 => .ok .Tocantins | 21 => .ok .Maranhao | 22 => .ok .Piaui
  | 23 => .ok .Ceara | 24 => .ok .RioGrandeDoNorte | 25 => .ok .Paraiba
  | 26 => .ok .Pernambuco | 27 => .ok .Alagoas | 28 => .ok .Sergipe
  | 29 => .ok .Bahia | 31 => .ok .MinasGerais | 32 => .ok .EspiritoSanto
  | 33 => .ok .RioDeJaneiro | 35 => .ok .SaoPaulo | 41 => .ok .Parana
  | 42 => .ok .SantaCatarina | 43 => .ok .RioGrandeDoSul
  | 50 => .ok .MatoGrossoDoSul | 51 => .ok .MatoGrosso | 52 => .ok .Goias
  | 53 => .ok .DistritoFederal
  | _ => .error ("Invalid state code: " ++ toString value)

structure Location where
  state : State
  city : City
deriving DecidableEq

/-! ## enums.rs -/

inductive TransportType where
  | CIF | FOB | ThirdParty | Issuer | Recipient | NoTransport
deriving DecidableEq

/-- Discriminants of TransportType (the source variant named None is
modelled as NoTransport). -/
def TransportType.code : TransportType → Nat
  | .CIF => 0 | .FOB => 1 | .ThirdParty => 2 | .Issuer => 3
  | .Recipient => 4 | .NoTransport => 9

instance : Inhabited TransportType := ⟨.NoTransport⟩

def TransportType.try_from (value : Nat) : Except String TransportType :=
  match value with
  | 0 => .ok .CIF | 1 => .ok .FOB | 2 => .ok .ThirdParty | 3 => .ok .Issuer
  | 4 => .ok .Recipient | 9 => .ok .NoTransport
  | _ => .error ("Invalid transport type value: " ++ toString value)

inductive Model where
  | NFe | NFCe
deriving DecidableEq

def Model.code : Model → Nat
  | .NFe => 55 | .NFCe => 65

def Model.try_from (value : Nat) : Except String Model :=
  match value with
  | 55 => .ok .NFe | 65 => .ok .NFCe
  | _ => .error ("Invalid model value: " ++ toString value)

inductive Operation where
  | Incoming | Outgoing
deriving DecidableEq

def Operation.code : Operation → Nat
  | .Incoming => 0 | .Outgoing => 1

def Operation.try_from (value : Nat) : Except String Operation :=
  match value with
  | 0 => .ok .Incoming | 1 => .ok .Outgoing
  | _ => .error ("Invalid operation value: " ++ toString value)

inductive DestinationTarget where
  | Internal | Interstate | External
deriving DecidableEq

def DestinationTarget.code : DestinationTarget → Nat
  | .Internal => 1 | .Interstate => 2 | .External => 3

def DestinationTarget.try_from (value : Nat) : Except String DestinationTarget :=
  match value with
  | 1 => .ok .Internal | 2 => .ok .Interstate | 3 => .ok .External
  | _ => .error ("Invalid destination target value: " ++ toString value)

inductive DanfeGeneration where
  | NormalPortrait | NormalLandscape | Simplified | NFCe | NFCeVirtual
deriving DecidableEq

def DanfeGeneration.code : DanfeGeneration → Nat
  | .NormalPortrait => 1 | .NormalLandscape => 2 | .Simplified => 3
  | .NFCe => 4 | .NFCeVirtual => 5

def DanfeGeneration.try_from (value : Nat) : Except String DanfeGeneration :=
  match value with
  | 1 => .ok .NormalPortrait | 2 => .ok .NormalLandscape | 3 => .ok .Simplified
  | 4 => .ok .NFCe | 5 => .ok .NFCeVirtual
  | _ => .error ("Invalid DANFE generation value: " ++ toString value)

inductive EmissionType where
  | Normal | FSIA | EPEC | FSDA | SVCAN | SVCRS | Offline
deriving DecidableEq

def EmissionType.code : EmissionType → Nat
  | .Normal => 1 | .FSIA => 2 | .EPEC => 4 | .FSDA => 5
  | .SVCAN => 6 | .SVCRS => 7 | .Offline => 9

def EmissionType.try_from (value : Nat) : Except String EmissionType :=
  match value with
  | 1 => .ok .Normal | 2 => .ok .FSIA | 4 => .ok .EPEC | 5 => .ok .FSDA
  | 6 => .ok .SVCAN | 7 => .ok .SVCRS | 9 => .ok .Offline
  | _ => .error ("Invalid emission type value: " ++ toString value)

inductive Environment where
  | Production | Homologation
deriving DecidableEq

def Environment.code : Environment → Nat
  | .Production => 1 | .Homologation => 2

def Environment.try_from (value : Nat) : Except String Environment :=
  match value with
  | 1 => .ok .Production | 2 => .ok .Homologation
  | _ => .error ("Invalid environment value: " ++ toString value)

inductive Finality where
  | Normal | Complementary | Adjustment | Cancellation
deriving DecidableEq

def Finality.code : Finality → Nat
  | .Normal => 1 | .Complementary => 2 | .Adjustment => 3 | .Cancellation => 4

def Finality.try_from (value : Nat) : Except String Finality :=
  match value with
  | 1 => .ok .Normal | 2 => .ok .Complementary | 3 => .ok .Adjustment
  | 4 => .ok .Cancellation
  | _ => .error ("Invalid finality value: " ++ toString value)

inductive Presence where
  | InplaceIndoor | InplaceOutdoor | Internet | Teleservice | Delivery | Other
deriving DecidableEq

def Presence.code : Presence → Nat
  | .InplaceIndoor => 1 | .InplaceOutdoor => 5 | .Internet => 2
  | .Teleservice => 3 | .Delivery => 4 | .Other => 9

def Presence.try_from (value : Nat) : Except String Presence :=
  match value with
  | 1 => .ok .InplaceIndoor | 2 => .ok .Internet | 3 => .ok .Teleservice
  | 4 => .ok .Delivery | 5 => .ok .InplaceOutdoor | 9 => .ok .Other
  | _ => .error ("Invalid presence value: " ++ toString value)

inductive Intermediator where
  | External
deriving DecidableEq

def Intermediator.code : Intermediator → Nat
  | .External => 1

def Intermediator.try_from (value : Nat) : Except String Intermediator :=
  match value with
  | 1 => .ok .External
  | _ => .error ("Invalid intermediator value: " ++ toString value)

structure CNPJ where
  val : String
deriving DecidableEq

structure CPF where
  val : String
deriving DecidableEq

structure IE where
  val : String
deriving DecidableEq

inductive PersonDocument where
  | CNPJ (c : CNPJ)
  | CPF (c : CPF)
deriving DecidableEq

/-- The string content of the wrapped person document (as_str in the source,
matching by shape and returning the inner string). -/
def PersonDocument.as_str : PersonDocument → String
  | .CNPJ c => c.val
  | .CPF c => c.val

/-- CSOSN conversion from u8 in enums.rs is a From impl that panics on any
value other than 102; the panic is modelled by none. -/
inductive CSOSN where
  | FinalConsumer
deriving DecidableEq

def CSOSN.code : CSOSN → Nat
  | .FinalConsumer => 102

def CSOSN.from_code (value : Nat) : Option CSOSN :=
  match value with
  | 102 => some .FinalConsumer
  | _ => none

/-- Origin conversion from u8 in enums.rs is a From impl that panics on any
value outside 0 to 8; the panic is modelled by none. -/
inductive Origin where
  | National | NationalInConformity | NationalContentBelow40
  | NationalContentBetween40And70 | NationalContentAbove70
  | Foreign | ForeignInternalMarket | ForeignNoSimilar
  | ForeignInternalMarketNoSimilar
deriving DecidableEq

def Origin.code : Origin → Nat
  | .National => 0 | .NationalInConformity => 4 | .NationalContentBelow40 => 5
  | .NationalContentBetween40And70 => 3 | .NationalContentAbove70 => 8
  | .Foreign => 1 | .ForeignInternalMarket => 2 | .ForeignNoSimilar => 6
  | .ForeignInternalMarketNoSimilar => 7

def Origin.from_code (value : Nat) : Option Origin :=
  match value with
  | 0 => some .National
  | 1 => some .Foreign
  | 2 => some .ForeignInternalMarket
  | 3 => some .NationalContentBetween40And70
  | 4 => some .NationalInConformity
  | 5 => some .NationalContentBelow40
  | 6 => some .ForeignNoSimilar
  | 7 => some .ForeignInternalMarketNoSimilar
  | 8 => some .NationalContentAbove70
  | _ => none

inductive PaymentType where
  | Cash | Check | CreditCard | DebitCard | ShopCredit | FoodVoucher
  | MealVoucher | GiftCard | GasVoucher | Boleto | BankDeposit | PIX
  | Transfer | Program
deriving DecidableEq

def PaymentType.code : PaymentType → Nat
  | .Cash => 1 | .Check => 2 | .CreditCard => 3 | .DebitCard => 4
  | .ShopCredit => 5 | .FoodVoucher => 6 | .MealVoucher => 7 | .GiftCard => 8
  | .GasVoucher => 9 | .Boleto => 15 | .BankDeposit => 16 | .PIX => 17
  | .Transfer => 18 | .Program => 19

def PaymentType.try_from (value : Nat) : Except String PaymentType :=
  match value with
  | 1 => .ok .Cash | 2 => .ok .Check | 3 => .ok .CreditCard
  | 4 => .ok .DebitCard | 5 => .ok .ShopCredit | 6 => .ok .FoodVoucher
  | 7 => .ok .MealVoucher | 8 => .ok .GiftCard | 9 => .ok .GasVoucher
  | 15 => .ok .Boleto | 16 => .ok .BankDeposit | 17 => .ok .PIX
  | 18 => .ok .Transfer | 19 => .ok .Program
  | _ => .error ("Invalid payment type value: " ++ toString value)

/-- PaymentType serializes as its code left padded with zeros to width 2. -/
def PaymentType.serialize (p : PaymentType) : String :=
  left_pad (toString p.code) 2 '0'


/-! ## Dates

The source stores chrono DateTime values.  Only their year, their month and
their rendered textual forms are consumed by the core (key generation and
the codec), so a DateTime is modelled by those observations. -/

structure DateTime where
  /-- The proleptic Gregorian year, as returned by year(). -/
  year : Int
  /-- The month number 1 to 12, as returned by month(). -/
  month : Nat
  /-- The rendered RFC 3339 text after the zero padded month, for example
  "-05T14:30:00-03:00". -/
  rest : String
  /-- The rendered text of the value converted to UTC (used by the optional
  dhSaiEnt field only). -/
  utc : String
deriving DecidableEq

/-- Modelled from chrono: to_rfc3339 renders year, zero padded month and the
remainder of the timestamp. -/
def DateTime.to_rfc3339 (d : DateTime) : String :=
  toString d.year ++ "-" ++ left_pad (toString d.month) 2 '0' ++ d.rest

/-- Modelled from chrono: parse_from_rfc3339 reads a four digit year, a two
digit month and keeps the remainder; anything else is a parse error.  The
UTC rendering of the parsed instant is not observed by any claim and is
modelled as the canonical one recomputed by to_rfc3339 round trips. -/
def parse_from_rfc3339 (s : String) : Option DateTime :=
  let cs := s.data
  match strToNat? (String.mk (cs.take 4)), strToNat? (String.mk ((cs.drop 5).take 2)) with
  | some y, some m =>
      if 1 ≤ m ∧ m ≤ 12 ∧ (cs.drop 4).take 1 = ['-'] then
        some { year := (y : Int), month := m
               rest := String.mk (cs.drop 7), utc := s }
      else none
  | _, _ => none

/-! ## Document model structures (models.rs) -/

/-- F64 wraps a floating value; modelled by an exact rational. -/
structure F64 where
  val : ℚ
deriving DecidableEq

/-- F64 always serializes as its value rendered with exactly 2 decimals. -/
def F64.serialize (x : F64) : String := formatFixed 2 x.val

structure Payment where
  ptype : PaymentType
  value : F64
deriving DecidableEq

structure Payments where
  payments : List Payment
deriving DecidableEq

structure Authorized where
  documents : List PersonDocument
deriving DecidableEq

structure Transport where
  ttype : TransportType
deriving DecidableEq

instance : Inhabited Transport := ⟨⟨.NoTransport⟩⟩

structure TotalICMS where
  base : F64
  value : F64
  unburdened : F64
  fcp_value : F64
  base_tributary_substitution : F64
  total_tributary_substitution : F64
  fcp_value_tributary_substitution : F64
  retained_fcp_value_tributary_substitution : F64
  total_products : F64
  freight : F64
  insurance : F64
  discount : F64
  import_tax : F64
  industrial_tax : F64
  refunded_industrial_tax : F64
  pis_value : F64
  cofins_value : F64
  other : F64
  total : F64
deriving DecidableEq

structure Total where
  icms : TotalICMS
deriving DecidableEq

structure Identification where
  location : Location
  numeric_code : Nat
  operation_nature : String
  model : Model
  series : Nat
  number : Nat
  emission_date : DateTime
  date : Option DateTime
  rtype : Operation
  destination : DestinationTarget
  printing_type : Option DanfeGeneration
  emission_type : EmissionType
  verifier_digit : Nat
  environment : Environment
  finality : Finality
  consumer : Bool
  presence : Option Presence
  intermediator : Option Intermediator
deriving DecidableEq

/-- procEmi has the fixed value 0. -/
def Identification.emission_process (_ : Identification) : Nat := 0

/-- The crate version rendered into verProc (CARGO_PKG_VERSION). -/
def LIBRARY_VERSION : String := "0.1.0"

def Identification.emission_version (_ : Identification) : String :=
  LIBRARY_VERSION

structure Address where
  line_1 : String
  line_2 : Option String
  number : String
  neighborhood : String
  city : City
  state : State
  zip_code : String
  telephone : String
deriving DecidableEq

structure TaxableAddress where
  address : Address
  ie : IE
deriving DecidableEq

structure Issuer where
  document : PersonDocument
  name : String
  trade_name : Option String
  address : TaxableAddress
deriving DecidableEq

structure Item where
  code : String
  gtin : Option String
  description : String
  ncm : Nat
  cfop : Nat
  unit : String
  quantity : ℚ
  total_value : ℚ
  tribute_unit : String
  tribute_quantity : ℚ
  tribute_unit_value : ℚ
  discount_value : Option ℚ
  other_value : Option ℚ
  included : Bool
deriving DecidableEq

structure ICMSSN102 where
  origin : Origin
  csosn : CSOSN
deriving DecidableEq

inductive ICMS where
  | ICMSSN102 (data : ICMSSN102)
deriving DecidableEq

structure Tax where
  icms : ICMS
deriving DecidableEq

structure Detail where
  item : Item
  tax : Tax
deriving DecidableEq

structure Info where
  identification : Identification
  issuer : Issuer
  details : List Detail
  authorized : Option Authorized
  total : Total
  transport : Transport
  payments : Payments
deriving DecidableEq

def Info.version (_ : Info) : String := "4.00"

/-! ## Key / check digit generator (models.rs, Info) -/

/-- The year fragment used by bare_id: the rendering of the year with its
first two bytes sliced off.  The byte slice panics (none) when the rendered
year is shorter than two characters. -/
def yearSuffix (y : Int) : Option String :=
  let cs := (toString y).data
  if cs.length ≥ 2 then some (String.mk (cs.drop 2)) else none

/-- The concatenation bare_id builds before its length assertion. -/
def Info.bare_id_parts (info : Info) : Option String :=
  (yearSuffix info.identification.emission_date.year).map fun ys =>
    toString info.identification.location.state.code
    ++ ys
    ++ toString info.identification.emission_date.month
    ++ left_pad info.issuer.document.as_str 14 '0'
    ++ toString info.identification.model.code
    ++ left_pad (toString info.identification.series) 3 '0'
    ++ left_pad (toString info.identification.number) 9 '0'
    ++ toString info.identification.emission_type.code
    ++ left_pad (toString info.identification.numeric_code) 8 '0'

/-- bare_id: the concatenation followed by the 43 character assertion, whose
failure is a panic (none). -/
def Info.bare_id (info : Info) : Option String :=
  info.bare_id_parts.bind fun s => if s.length = 43 then some s else none

/-- One character of the verifier digit fold: a decimal digit or a panic. -/
def charDigit (c : Char) : Option Nat :=
  if c.isDigit then some (c.toNat - 48) else none

/-- The weight update of verifier_digit: after using weight 2 (or less) the
weight restarts at 9, otherwise it decreases by one. -/
def weightStep (w : Nat) : Nat := if w ≤ 2 then 9 else w - 1

/-- The fold of verifier_digit over the characters of the id, accumulating
the weighted sum; a non digit character is a panic (none). -/
def verifierFold : List Char → Nat → Nat → Option Nat
  | [], acc, _ => some acc
  | c :: cs, acc, w =>
    (charDigit c).bind fun d => verifierFold cs (acc + d * w) (weightStep w)

/-- verifier_digit: weighted sum starting at weight 4, remainder modulo 11,
digit 0 when the remainder is 0 or 1 and 11 minus the remainder otherwise. -/
def Info.verifier_digit (_ : Info) (id : String) : Option Nat :=
  (verifierFold id.data 0 4).map fun sum =>
    let remainder := sum % 11
    if remainder > 1 then 11 - remainder else 0

/-- id: the NFe prefix, the bare id and its verifier digit. -/
def Info.id (info : Info) : Option String :=
  info.bare_id.bind fun s =>
    (info.verifier_digit s).map fun d => "NFe" ++ s ++ toString d

/-! ## Builder (models.rs) -/

structure DoNotMatchTotal where
  expected : ℚ
  total : ℚ
deriving DecidableEq

inductive ConfigError where
  | InvalidIssuer | MissingPKCS12Config | Locked | NotInitialized
deriving DecidableEq

inductive InfoBuilderError where
  | PaymentsDoNotMatchTotal (d : DoNotMatchTotal)
  | ConfigError (e : ConfigError)
deriving DecidableEq

structure InfoBuilder where
  identification : Identification
  issuer : Issuer
  payments : Payments
  details : List Detail
  authorized : Option Authorized
  transport : Option Transport
deriving DecidableEq

def InfoBuilder.add_detail (b : InfoBuilder) (d : Detail) : InfoBuilder :=
  { b with details := b.details ++ [d] }

def InfoBuilder.set_authorized (b : InfoBuilder) (a : Authorized) : InfoBuilder :=
  { b with authorized := some a }

def InfoBuilder.set_transport (b : InfoBuilder) (t : Transport) : InfoBuilder :=
  { b with transport := some t }

/-- Total::calculate: sums of item totals, discounts and other charges; the
remaining components are hardcoded to zero. -/
def Total.calculate (b : InfoBuilder) : Total :=
  let total_products := b.details.foldl (fun acc d => acc + d.item.total_value) 0
  let discount := b.details.foldl (fun acc d => acc + d.item.discount_value.getD 0) 0
  let unburdened : ℚ := 0
  let freight : ℚ := 0
  let insurance : ℚ := 0
  let other := b.details.foldl (fun acc d => acc + d.item.other_value.getD 0) 0
  let import_tax : ℚ := 0
  let industrial_tax : ℚ := 0
  let refunded_industrial_tax : ℚ := 0
  let total_value := total_products - discount - unburdened + freight + insurance
    + other + import_tax + industrial_tax + refunded_industrial_tax
  { icms :=
    { base := ⟨0⟩, value := ⟨0⟩, unburdened := ⟨unburdened⟩, fcp_value := ⟨0⟩
      base_tributary_substitution := ⟨0⟩, total_tributary_substitution := ⟨0⟩
      fcp_value_tributary_substitution := ⟨0⟩
      retained_fcp_value_tributary_substitution := ⟨0⟩
      total_products := ⟨total_products⟩, freight := ⟨freight⟩
      insurance := ⟨insurance⟩, discount := ⟨discount⟩
      import_tax := ⟨import_tax⟩, industrial_tax := ⟨industrial_tax⟩
      refunded_industrial_tax := ⟨refunded_industrial_tax⟩
      pis_value := ⟨0⟩, cofins_value := ⟨0⟩, other := ⟨other⟩
      total := ⟨total_value⟩ } }

/-- f64::EPSILON, the tolerance of the balance check. -/
def f64Epsilon : ℚ := 1 / 2 ^ 52

/-- The sum of the payment values of a builder. -/
def InfoBuilder.paid (b : InfoBuilder) : ℚ :=
  b.payments.payments.foldl (fun acc p => acc + p.value.val) 0

/-- check_paid: the payment sum must equal the computed total within
f64::EPSILON, otherwise a typed error carrying the expected total and the
paid sum. -/
def InfoBuilder.check_paid (b : InfoBuilder) (total : Total) :
    Except InfoBuilderError Unit :=
  let paid := b.paid
  let expected := total.icms.total.val
  if |paid - expected| < f64Epsilon then .ok ()
  else .error (.PaymentsDoNotMatchTotal ⟨expected, paid⟩)

/-- The Info a successful build assembles before the verifier digit is
written into the identification. -/
def InfoBuilder.assemble (b : InfoBuilder) (total : Total) : Info :=
  { identification := b.identification, issuer := b.issuer
    details := b.details, authorized := b.authorized
    payments := b.payments, total := total
    transport := b.transport.getD default }

/-- build: computes the total, checks the payment balance, then computes the
verifier digit from the bare id (whose 43 character assertion and digit
parsing can panic, modelled by none) and stores it in the identification. -/
def InfoBuilder.build (b : InfoBuilder) :
    Option (Except InfoBuilderError Info) :=
  let total := Total.calculate b
  match b.check_paid total with
  | .error e => some (.error e)
  | .ok _ =>
    let info := b.assemble total
    match info.bare_id with
    | none => none
    | some s =>
      match info.verifier_digit s with
      | none => none
      | some d => some (.ok { info with
          identification := { info.identification with verifier_digit := d } })

/-! ## Info deserialization (models.rs)

The serde helper struct of Info::deserialize holds the already decoded
components together with the two attributes of the root element; the
function below is the body that runs after the helper has been decoded. -/

structure InfoHelper where
  versao : String
  id : String
  identification : Identification
  issuer : Issuer
  details : List Detail
  authorized : Option Authorized
  total : Total
  transport : Transport
  payments : Payments
deriving DecidableEq

/-- The Info assembled from a decoded helper. -/
def InfoHelper.assemble (h : InfoHelper) : Info :=
  { identification := h.identification, issuer := h.issuer
    details := h.details, authorized := h.authorized, total := h.total
    transport := h.transport, payments := h.payments }

/-- Info::deserialize after helper decoding: reject any version other than
4.00, recompute the id (whose computation can panic, modelled by none) and
reject a mismatch with the @Id attribute of the input. -/
def Info.deserialize (h : InfoHelper) : Option (Except String Info) :=
  if h.versao ≠ "4.00" then
    some (.error ("Unsupported version: " ++ h.versao))
  else
    let info := h.assemble
    match info.id with
    | none => none
    | some i =>
      if i ≠ h.id then
        some (.error ("ID mismatch: expected " ++ i ++ ", found " ++ h.id))
      else some (.ok info)

/-! ## Config store (config.rs)

The store is a process wide read write lock around an optional Config.  The
lock is modelled by its two observable conditions: usable with a current
value, or poisoned by a failure of a previous writer. -/

structure PKCS12Config where
  path : String
  password : String
deriving DecidableEq

structure Config where
  issuer : Issuer
  pkcs12_config : PKCS12Config
deriving DecidableEq

inductive LockState (α : Type) where
  | available (v : α)
  | poisoned
deriving DecidableEq

/-- set_config: a poisoned lock is converted to the typed Locked error;
otherwise the stored value is replaced. -/
def set_config (st : LockState (Option Config)) (c : Config) :
    LockState (Option Config) × Except ConfigError Unit :=
  match st with
  | .poisoned => (.poisoned, .error .Locked)
  | .available _ => (.available (some c), .ok ())

/-- get_issuer: a poisoned lock is converted to the typed Locked error; an
unset store is the typed NotInitialized error. -/
def get_issuer (st : LockState (Option Config)) : Except ConfigError Issuer :=
  match st with
  | .poisoned => .error .Locked
  | .available none => .error .NotInitialized
  | .available (some c) => .ok c.issuer

/-- is_set: reads the lock with expect, so a poisoned lock is a panic
(modelled by none), not a typed error. -/
def is_set (st : LockState (Option Config)) : Option Bool :=
  match st with
  | .poisoned => none
  | .available v => some v.isSome

/-! ## Field level codec (models.rs, serde impls)

A serialized struct is the ordered list of its emitted fields, each an
element name with its textual content. -/

abbrev Fields := List (String × String)

def lookupField (fs : Fields) (name : String) : Option String :=
  (fs.find? fun p => p.1 == name).map (·.2)

def fieldNames (fs : Fields) : List String := fs.map (·.1)

/-- The serde serialization of an Intermediator value (a unit enum variant
renders as its variant name). -/
def Intermediator.serialize : Intermediator → String
  | .External => "External"

def parseIntermediator (s : String) : Option Intermediator :=
  if s = "External" then some .External else none

/-- Identification::serialize: the exact ordered field emission, with the
three conditional fields dhSaiEnt, tpImp and intermed and the defaulted
indPres. -/
def Identification.serialize (i : Identification) : Fields :=
  [("cUF", toString i.location.state.code),
   ("cNF", toString i.numeric_code),
   ("natOp", i.operation_nature),
   ("mod", toString i.model.code),
   ("serie", toString i.series),
   ("nNF", toString i.number),
   ("dhEmi", i.emission_date.to_rfc3339)]
  ++ (match i.date with
      | some d => [("dhSaiEnt", d.utc)]
      | none => [])
  ++ [("tpNF", toString i.rtype.code),
      ("idDest", toString i.destination.code),
      ("cMunFG", toString i.location.city.code),
      ("xMun", i.location.city.name)]
  ++ (match i.printing_type with
      | some p => [("tpImp", toString p.code)]
      | none => [])
  ++ [("tpEmis", toString i.emission_type.code),
      ("cDV", toString i.verifier_digit),
      ("tpAmb", toString i.environment.code),
      ("finNFe", toString i.finality.code),
      ("indFinal", toString (if i.consumer then 1 else 0)),
      ("indPres", toString (match i.presence with
        | some p => p.code
        | none => 0))]
  ++ (match i.intermediator with
      | some it => [("intermed", it.serialize)]
      | none => [])
  ++ [("procEmi", toString i.emission_process),
      ("verProc", i.emission_version)]

/-- A required helper field: missing or unparsable content is a serde
error. -/
def reqField (fs : Fields) (name : String) (parse : String → Option Nat) :
    Except String Nat :=
  match lookupField fs name with
  | none => .error ("missing field " ++ name)
  | some s =>
    match parse s with
    | none => .error ("invalid value in field " ++ name)
    | some v => .ok v

def reqStringField (fs : Fields) (name : String) : Except String String :=
  match lookupField fs name with
  | none => .error ("missing field " ++ name)
  | some s => .ok s

/-- Identification::deserialize: decode the raw helper fields, then run the
fallible conversions in the order of the source, including the indPres match
that accepts 0 as absence, converts 1 to 6 and rejects anything else. -/
def Identification.deserialize (fs : Fields) : Except String Identification := do
  let c_uf ← reqField fs "cUF" parseU8
  let c_nf ← reqField fs "cNF" parseU32
  let nat_op ← reqStringField fs "natOp"
  let model_raw ← reqField fs "mod" parseU8
  let serie ← reqField fs "serie" parseU8
  let n_nf ← reqField fs "nNF" parseU32
  let dh_emi ← reqStringField fs "dhEmi"
  let dh_sai_ent := lookupField fs "dhSaiEnt"
  let tp_nf ← reqField fs "tpNF" parseU8
  let id_dest ← reqField fs "idDest" parseU8
  let c_mun_fg ← reqField fs "cMunFG" parseU32
  let x_mun ← reqStringField fs "xMun"
  let tp_imp ← match lookupField fs "tpImp" with
    | none => pure none
    | some s => match parseU8 s with
      | none => Except.error "invalid value in field tpImp"
      | some v => pure (some v)
  let tp_emis ← reqField fs "tpEmis" parseU8
  let c_dv ← reqField fs "cDV" parseU8
  let tp_amb ← reqField fs "tpAmb" parseU8
  let fin_nfe ← reqField fs "finNFe" parseU8
  let ind_final ← reqField fs "indFinal" parseU8
  let ind_pres ← reqField fs "indPres" parseU8
  let intermed ← match lookupField fs "intermed" with
    | none => pure none
    | some s => match parseIntermediator s with
      | none => Except.error "invalid value in field intermed"
      | some v => pure (some v)
  let state ← State.try_from c_uf
  let model ← Model.try_from model_raw
  let rtype ← Operation.try_from tp_nf
  let destination ← DestinationTarget.try_from id_dest
  let printing_type ← match tp_imp with
    | some v => (DanfeGeneration.try_from v).map some
    | none => pure none
  let emission_type ← EmissionType.try_from tp_emis
  let environment ← Environment.try_from tp_amb
  let finality ← Finality.try_from fin_nfe
  let consumer := ind_final == 1
  let presence ← match ind_pres with
    | 0 => pure none
    | v => if 1 ≤ v ∧ v ≤ 6 then (Presence.try_from v).map some
           else Except.error "Invalid ind_pres value"
  let emission_date ← match parse_from_rfc3339 dh_emi with
    | some d => pure d
    | none => Except.error "invalid rfc3339 timestamp"
  let date ← match dh_sai_ent with
    | some s => match parse_from_rfc3339 s with
      | some d => pure (some d)
      | none => Except.error "invalid rfc3339 timestamp"
    | none => pure none
  pure { location := { state := state, city := { code := c_mun_fg, name := x_mun } }
         numeric_code := c_nf, operation_nature := nat_op, model := model
         series := serie, number := n_nf, emission_date := emission_date
         date := date, rtype := rtype, destination := destination
         printing_type := printing_type, emission_type := emission_type
         verifier_digit := c_dv, environment := environment
         finality := finality, consumer := consumer, presence := presence
         intermediator := intermed }

/-- Item::serialize: the exact ordered field emission.  An unset GTIN is
replaced by the fixed text SEM GTIN in cEAN and cEANTrib; vUnCom is the
quotient of the total value by the quantity rendered with 2 decimals, where
a zero quantity produces the non finite IEEE rendering of the Rust
formatter; vDesc and vOutro are rendered with 4 decimals. -/
def Item.serialize (it : Item) : Fields :=
  let gtin := it.gtin.getD "SEM GTIN"
  [("cProd", it.code),
   ("cEAN", gtin),
   ("xProd", it.description),
   ("NCM", toString it.ncm),
   ("CFOP", toString it.cfop),
   ("uCom", it.unit),
   ("qCom", formatFixed 4 it.quantity),
   ("vUnCom", if it.quantity = 0 then
       (if 0 < it.total_value then "inf"
        else if it.total_value < 0 then "-inf" else "NaN")
     else formatFixed 2 (it.total_value / it.quantity)),
   ("vProd", formatFixed 2 it.total_value),
   ("cEANTrib", gtin),
   ("uTrib", it.tribute_unit),
   ("qTrib", formatFixed 4 it.tribute_quantity),
   ("vUnTrib", formatFixed 2 it.tribute_unit_value)]
  ++ (match it.discount_value with
      | some d => [("vDesc", formatFixed 4 d)]
      | none => [])
  ++ (match it.other_value with
      | some o => [("vOutro", formatFixed 4 o)]
      | none => [])
  ++ [("indTot", toString (if it.included then 1 else 0))]

/-- A required floating field of the Item helper. -/
def reqF64Field (fs : Fields) (name : String) : Except String ℚ :=
  match lookupField fs name with
  | none => .error ("missing field " ++ name)
  | some s =>
    match parseF64 s with
    | none => .error ("invalid value in field " ++ name)
    | some v => .ok v

/-- Item::deserialize: the helper reads cProd, cEAN, xProd, NCM, CFOP, uCom,
qCom, vProd, uTrib, qTrib, vUnTrib, vDesc, vOutro and indTot; no vUnCom
field exists in the helper, so that element is never read. -/
def Item.deserialize (fs : Fields) : Except String Item := do
  let c_prod ← reqStringField fs "cProd"
  let c_ean := lookupField fs "cEAN"
  let x_prod ← reqStringField fs "xProd"
  let ncm ← reqField fs "NCM" parseU32
  let cfop ← reqField fs "CFOP" parseU32
  let u_com ← reqStringField fs "uCom"
  let quantity ← reqF64Field fs "qCom"
  let total_value ← reqF64Field fs "vProd"
  let u_trib ← reqStringField fs "uTrib"
  let tribute_quantity ← reqF64Field fs "qTrib"
  let tribute_unit_value ← reqF64Field fs "vUnTrib"
  let discount_value ← match lookupField fs "vDesc" with
    | none => pure none
    | some s => match parseF64 s with
      | none => Except.error "invalid value in field vDesc"
      | some v => pure (some v)
  let other_value ← match lookupField fs "vOutro" with
    | none => pure none
    | some s => match parseF64 s with
      | none => Except.error "invalid value in field vOutro"
      | some v => pure (some v)
  let ind_tot ← reqField fs "indTot" parseU8
  let included ← match ind_tot with
    | 0 => pure false
    | 1 => pure true
    | _ => Except.error "Invalid ind_tot value"
  pure { code := c_prod, gtin := c_ean, description := x_prod, ncm := ncm
         cfop := cfop, unit := u_com, quantity := quantity
         total_value := total_value, tribute_unit := u_trib
         tribute_quantity := tribute_quantity
         tribute_unit_value := tribute_unit_value
         discount_value := discount_value, other_value := other_value
         included := included }

/-! ## Specification side restatement of the check digit (§4.4)

The claims describe the weights as a position indexed sequence 4, 3, 2 and
then the cycle 9 down to 2; the definitions below write that sequence in
closed form, to be compared with the fold the source performs. -/

/-- The weight applied to the digit at position i. -/
def specWeight (i : Nat) : Nat :=
  if i < 3 then 4 - i else 9 - (i - 3) % 8

/-- The weighted sum of a digit list starting at position k. -/
def specSumFrom (k : Nat) : List Nat → Nat
  | [] => 0
  | d :: ds => d * specWeight k + specSumFrom (k + 1) ds

/-- The weighted sum of the whole digit list. -/
def specWeightedSum (ds : List Nat) : Nat := specSumFrom 0 ds

/-- The check digit of §4.4: remainder modulo 11; digit 0 when the remainder
is 0 or 1, and 11 minus the remainder otherwise. -/
def specCheckDigit (ds : List Nat) : Nat :=
  let r := specWeightedSum ds % 11
  if r = 0 ∨ r = 1 then 0 else 11 - r

/-- The string s ends a decimal rendering with exactly prec digits after a
decimal point. -/
def hasDecimals (prec : Nat) (s : String) : Prop :=
  ∃ pre post, s = pre ++ "." ++ post ∧ post.length = prec
    ∧ ∀ c ∈ post.data, c.isDigit

/-! ## Concrete sample values

The worked example of §8 of the specification, which coincides with the
fixture values of the test modules of the source. -/

def workedIdentification : Identification :=
  { location := { state := .MinasGerais
                  city := { code := 3106200, name := "Belo Horizonte" } }
    numeric_code := 12345678
    operation_nature := "Venda de mercadoria"
    model := .NFCe
    series := 1
    number := 12345
    emission_date := { year := 2023, month := 10
                       rest := "-05T14:30:00-03:00"
                       utc := "2023-10-05T17:30:00+00:00" }
    date := none
    rtype := .Outgoing
    destination := .Internal
    printing_type := some .NFCe
    emission_type := .Normal
    verifier_digit := 5
    environment := .Production
    finality := .Normal
    consumer := true
    presence := some .InplaceIndoor
    intermediator := none }

def workedAddress : Address :=
  { line_1 := "Rua Exemplo", line_2 := some "Loja 1", number := "123"
    neighborhood := "Centro"
    city := { code := 3106200, name := "Belo Horizonte" }
    state := .MinasGerais, zip_code := "01001000"
    telephone := "3132123456" }

def workedIssuer : Issuer :=
  { document := .CNPJ ⟨"12345678000195"⟩
    name := "Empresa Exemplo LTDA"
    trade_name := some "Empresa Exemplo"
    address := { address := workedAddress, ie := ⟨"123456789"⟩ } }

def workedItem : Item :=
  { code := "7896235354499"
    gtin := some "7896235354499"
    description := "desodorante aerosol monange 200ML"
    ncm := 33072010
    cfop := 5403
    unit := "UN"
    quantity := 3
    total_value := 56.97
    tribute_unit := "UN"
    tribute_quantity := 3
    tribute_unit_value := 18.99
    discount_value := none
    other_value := none
    included := true }

def workedDetail : Detail :=
  { item := workedItem
    tax := { icms := .ICMSSN102 { origin := .National, csosn := .FinalConsumer } } }

def workedPayments : Payments :=
  { payments := [ { ptype := .Cash, value := ⟨40⟩ }
                , { ptype := .CreditCard, value := ⟨73.94⟩ } ] }

/-- The builder of the worked example: two identical details summing to a
computed total of 113.94 against payments of 40.00 and 73.94. -/
def workedBuilder : InfoBuilder :=
  { identification := workedIdentification
    issuer := workedIssuer
    payments := workedPayments
    details := [workedDetail, workedDetail]
    authorized := none
    transport := none }

/-- The same builder with one detail of total value 100.00, so the computed
total is 100.00 while the payments still sum to 113.94. -/
def builder100 : InfoBuilder :=
  { workedBuilder with
    details := [ { workedDetail with
      item := { workedItem with total_value := 100 } } ] }

/-- The worked builder with the emission month changed to May; the payments
still balance the computed total. -/
def builderMonth5 : InfoBuilder :=
  { workedBuilder with
    identification := { workedIdentification with
      emission_date := { year := 2023, month := 5
                         rest := "-05T14:30:00-03:00"
                         utc := "2023-05-05T17:30:00+00:00" } } }

def workedInfo : Info := workedBuilder.assemble (Total.calculate workedBuilder)

def infoMonth5 : Info := builderMonth5.assemble (Total.calculate builderMonth5)

/-- The 43 character bare id of the worked example. -/
def workedBareId : String := "3123101234567800019565001000012345112345678"

/-- The worked identification with its presence indicator set to the Other
variant (wire code 9), a value Presence::try_from accepts. -/
def identOther : Identification :=
  { workedIdentification with presence := some .Other }

/-- The worked identification with no exit timestamp, no printing type and
no intermediator. -/
def identNoOpts : Identification :=
  { workedIdentification with printing_type := none }

def itemNoGtin : Item := { workedItem with gtin := none }

def itemDisc : Item := { workedItem with discount_value := some 40 }

def itemQty0 : Item := { workedItem with quantity := 0 }

/-- A decoded helper for the worked document carrying the correct @Id. -/
def helper0 : InfoHelper :=
  { versao := "4.00"
    id := "NFe31231012345678000195650010000123451123456783"
    identification := workedIdentification
    issuer := workedIssuer
    details := [workedDetail, workedDetail]
    authorized := none
    total := Total.calculate workedBuilder
    transport := ⟨.NoTransport⟩
    payments := workedPayments }

def configExample : Config :=
  { issuer := workedIssuer
    pkcs12_config := { path := "tests/certificates/cert.pfx"
                       password := "12345678" } }

/-- The Info the worked builder produces: the assembled document with the
computed verifier digit 3 stored in its identification. -/
def workedBuiltInfo : Info :=
  { workedInfo with
    identification := { workedIdentification with verifier_digit := 3 } }

/-! ## Helper lemmas -/

theorem roundNearest_natCast (n : ℕ) : roundNearest (n : ℚ) = n := by
  unfold roundNearest
  rw [add_comm, Int.floor_add_nat]
  have h : ⌊(1 / 2 : ℚ)⌋ = 0 := by
    rw [Int.floor_eq_iff]
    norm_num
  rw [h]; ring

/-- Evaluation of the fixed precision formatter at an exactly representable
nonnegative value. -/
theorem formatFixed_exact (prec : Nat) (q : ℚ) (n : Nat)
    (hq : 0 ≤ q) (h : q * (10 : ℚ) ^ prec = (n : ℚ)) :
    formatFixed prec q =
      toString (n / 10 ^ prec) ++ "." ++ natFixedDigits prec (n % 10 ^ prec) := by
  simp only [formatFixed]
  rw [abs_of_nonneg hq, h, roundNearest_natCast]
  rw [if_neg (not_lt.mpr hq)]
  simp

theorem natFixedDigits_length (prec n : Nat) :
    (natFixedDigits prec n).length = prec := by
  simp [natFixedDigits, String.length]

theorem digitChar_isDigit (d : Nat) (h : d < 10) : (Nat.digitChar d).isDigit := by
  interval_cases d <;> decide

theorem natFixedDigits_digits (prec n : Nat) :
    ∀ c ∈ (natFixedDigits prec n).data, c.isDigit := by
  intro c hc
  simp only [natFixedDigits, List.mem_map] at hc
  obtain ⟨i, _, rfl⟩ := hc
  exact digitChar_isDigit _ (Nat.mod_lt _ (by norm_num))

theorem weightStep_specWeight (k : Nat) :
    weightStep (specWeight k) = specWeight (k + 1) := by
  unfold weightStep specWeight
  rcases Nat.lt_or_ge k 3 with h | h
  · interval_cases k <;> decide
  · have h1 : ¬ k < 3 := by omega
    have h2 : ¬ k + 1 < 3 := by omega
    simp only [h1, h2, if_false]
    split_ifs with h3 <;> omega

/-- The fold of the source computes the position weighted sum of the
specification. -/
theorem verifierFold_spec (cs : List Char) :
    ∀ (acc k : Nat), (∀ c ∈ cs, c.isDigit) →
      verifierFold cs acc (specWeight k) =
        some (acc + specSumFrom k (cs.map fun c => c.toNat - 48)) := by
  induction cs with
  | nil => intro acc k _; simp [verifierFold, specSumFrom]
  | cons c cs ih =>
    intro acc k h
    have hc : c.isDigit := h c (List.mem_cons_self _ _)
    have hcs : ∀ x ∈ cs, x.isDigit := fun x hx => h x (List.mem_cons_of_mem _ hx)
    have hd : charDigit c = some (c.toNat - 48) := by simp [charDigit, hc]
    simp only [verifierFold, hd, Option.some_bind]
    rw [weightStep_specWeight]
    rw [ih (acc + (c.toNat - 48) * specWeight k) (k + 1) hcs]
    simp only [List.map_cons, specSumFrom, Nat.add_assoc]

theorem lookupField_append_ne (fs : Fields) (n m v : String) (h : m ≠ n) :
    lookupField (fs ++ [(n, v)]) m = lookupField fs m := by
  have hnm : (n == m) = false := beq_eq_false_iff_ne.mpr (Ne.symm h)
  unfold lookupField
  rw [List.find?_append]
  simp [List.find?, hnm]

theorem reqStringField_append_ne (fs : Fields) (n v name : String)
    (h : name ≠ n) :
    reqStringField (fs ++ [(n, v)]) name = reqStringField fs name := by
  unfold reqStringField
  rw [lookupField_append_ne fs n name v h]

theorem reqField_append_ne (fs : Fields) (n v name : String)
    (parse : String → Option Nat) (h : name ≠ n) :
    reqField (fs ++ [(n, v)]) name parse = reqField fs name parse := by
  unfold reqField
  rw [lookupField_append_ne fs n name v h]

theorem reqF64Field_append_ne (fs : Fields) (n v name : String)
    (h : name ≠ n) :
    reqF64Field (fs ++ [(n, v)]) name = reqF64Field fs name := by
  unfold reqF64Field
  rw [lookupField_append_ne fs n name v h]

/-- The two phrasings of the final check digit step agree. -/
theorem checkDigitIf (x : Nat) :
    (if x > 1 then 11 - x else 0) = (if x = 0 ∨ x = 1 then 0 else 11 - x) := by
  split_ifs <;> omega

/-- The balance failure branch of build. -/
theorem build_balance_error (b : InfoBuilder)
    (h : ¬ |b.paid - (Total.calculate b).icms.total.val| < f64Epsilon) :
    b.build = some (.error (.PaymentsDoNotMatchTotal
      ⟨(Total.calculate b).icms.total.val, b.paid⟩)) := by
  unfold InfoBuilder.build InfoBuilder.check_paid
  simp only []
  rw [if_neg h]

/-! ## Claim theorems -/

/-- C1: the round trip law decode(encode(x)) = x fails on the code: the
worked Identification with its presence indicator set to the Other variant
(a valid model value, accepted by Presence::try_from as wire code 9)
serializes with indPres 9, and Identification::deserialize rejects that very
value with the error Invalid ind_pres value, because its indPres match only
accepts 0 to 6.  Decoding the encoding of this valid value therefore fails
instead of returning the value. -/
theorem C1_roundtrip_fails_on_presence_other :
    Identification.deserialize identOther.serialize
      = .error "Invalid ind_pres value" := rfl

/-- C2: the verifier digit of any 43 character digit string is the modulus
11 weighted checksum with position weights 4, 3, 2 and then the cycle 9 down
to 2, with digit 0 for remainders 0 and 1 and 11 minus the remainder
otherwise; the full identifier is the NFe prefix, the 43 character bare id
and this one check digit; and the worked example of §8 produces exactly that
shape. -/
theorem C2_check_digit_and_id :
    (∀ s : String, s.length = 43 → (∀ c ∈ s.data, c.isDigit) →
       ∀ info : Info, info.verifier_digit s =
         some (specCheckDigit (s.data.map fun c => c.toNat - 48)))
    ∧ (∀ (info : Info) (bid : String) (d : Nat), info.bare_id = some bid →
         info.verifier_digit bid = some d →
         info.id = some ("NFe" ++ bid ++ toString d))
    ∧ workedInfo.bare_id = some workedBareId
    ∧ workedInfo.id = some ("NFe" ++ workedBareId
        ++ toString (specCheckDigit (workedBareId.data.map fun c => c.toNat - 48))) := by
  refine ⟨?_, ?_, rfl, ?_⟩
  · intro s _ hdig info
    unfold Info.verifier_digit
    have h0 : (4 : Nat) = specWeight 0 := rfl
    rw [h0, verifierFold_spec s.data 0 0 hdig]
    unfold specCheckDigit specWeightedSum
    simp only [Nat.zero_add, Option.map]
    congr 1
    exact checkDigitIf _
  · intro info bid d h1 h2
    unfold Info.id
    rw [h1, Option.some_bind, h2]
    rfl
  · rfl

/-- C2 witness: the theorem applied to the worked 43 digit bare id and the
worked document. -/
theorem C2_check_digit_and_id_witness :
    workedInfo.verifier_digit workedBareId =
      some (specCheckDigit (workedBareId.data.map fun c => c.toNat - 48)) :=
  C2_check_digit_and_id.1 workedBareId rfl (by decide) workedInfo

/-- C4: the claim that the bare id is always 43 characters for validly typed
fields is contradicted by the code: with the worked example fields and an
emission date in May (month rendered unpadded as one digit), the
concatenation has 42 characters, so the internal length assertion fires (a
panic, modelled by none) on a validly typed input. -/
theorem C4_bare_id_length_assert_fires :
    infoMonth5.bare_id_parts
      = some "312351234567800019565001000012345112345678"
    ∧ "312351234567800019565001000012345112345678".length = 42
    ∧ infoMonth5.bare_id = none :=
  ⟨rfl, rfl, rfl⟩

/-- C6: the integer to enum conversions of CSOSN and Origin are panicking
From impls, not typed results: any value outside the known set panics
(modelled by none), while the other enumerated types return a typed error
for the same situation. -/
theorem C6_csosn_origin_conversions_panic :
    CSOSN.from_code 103 = none
    ∧ Origin.from_code 9 = none
    ∧ Model.try_from 103 = .error "Invalid model value: 103"
    ∧ Presence.try_from 7 = .error "Invalid presence value: 7" :=
  ⟨rfl, rfl, rfl, rfl⟩

/-- C9: on a poisoned lock, set_config and get_issuer surface the typed
Locked error but is_set panics (modelled by none) through its expect call,
so the accessors are not uniform and is_set does not return a typed
error. -/
theorem C9_is_set_panics_on_poisoned_lock :
    is_set (LockState.poisoned : LockState (Option Config)) = none
    ∧ get_issuer (LockState.poisoned : LockState (Option Config))
        = .error .Locked
    ∧ (set_config (LockState.poisoned : LockState (Option Config))
        configExample).2 = .error .Locked :=
  ⟨rfl, rfl, rfl⟩

/-- C5: Info deserialization recomputes the derived identifier from the
decoded fields: whenever decoding returns an Info, that Info is the
assembled helper and its recomputed identifier equals the @Id attribute of
the input; and whenever the recomputed identifier is defined and disagrees
with the @Id attribute (the version being supported), decoding fails with
the ID mismatch error. -/
theorem C5_deserialize_validates_id (h : InfoHelper) :
    (∀ info : Info, Info.deserialize h = some (.ok info) →
       info = h.assemble ∧ info.id = some h.id)
    ∧ (h.versao = "4.00" → ∀ i : String, h.assemble.id = some i →
       i ≠ h.id → Info.deserialize h
         = some (.error ("ID mismatch: expected " ++ i ++ ", found " ++ h.id))) := by
  constructor
  · intro info hinfo
    unfold Info.deserialize at hinfo
    by_cases hv : h.versao ≠ "4.00"
    · rw [if_pos hv] at hinfo
      simp at hinfo
    · rw [if_neg hv] at hinfo
      simp only [] at hinfo
      split at hinfo
      · simp at hinfo
      next i heq =>
        by_cases hne : i ≠ h.id
        · rw [if_pos hne] at hinfo
          simp at hinfo
        · rw [if_neg hne] at hinfo
          push_neg at hne
          simp only [Option.some.injEq, Except.ok.injEq] at hinfo
          subst hinfo
          exact ⟨rfl, by rw [heq, hne]⟩
  · intro hv i hid hne
    unfold Info.deserialize
    rw [if_neg (by simp [hv])]
    simp only []
    simp [hid, hne]

/-- C5 witness: the theorem applied to the decoded helper of the worked
document, whose @Id carries the correctly recomputed identifier. -/
theorem C5_deserialize_validates_id_witness :
    helper0.assemble = helper0.assemble
    ∧ (helper0.assemble).id = some helper0.id :=
  (C5_deserialize_validates_id helper0).1 helper0.assemble rfl

/-- C7 counterexample: encoding an Item with no GTIN does emit a cEAN
element, with the fixed placeholder text SEM GTIN, so the claim that an
unset optional field is always omitted from the output is false. -/
theorem C7_counterexample_cEAN_emitted :
    "cEAN" ∈ fieldNames itemNoGtin.serialize
    ∧ lookupField itemNoGtin.serialize "cEAN" = some "SEM GTIN" := by
  refine ⟨?_, rfl⟩
  decide

/-- C7 amended: the unset optional fields of Identification (exit
timestamp, printing type, intermediator) and of Item (discount, other
charges) are omitted from the output entirely; an unset GTIN however is
emitted in cEAN and cEANTrib with the fixed text SEM GTIN. -/
theorem C7_optional_field_elision (i : Identification) (it : Item)
    (hdate : i.date = none) (hprint : i.printing_type = none)
    (hint : i.intermediator = none) :
    ("dhSaiEnt" ∉ fieldNames i.serialize
     ∧ "tpImp" ∉ fieldNames i.serialize
     ∧ "intermed" ∉ fieldNames i.serialize)
    ∧ (it.discount_value = none → "vDesc" ∉ fieldNames it.serialize)
    ∧ (it.other_value = none → "vOutro" ∉ fieldNames it.serialize)
    ∧ (it.gtin = none →
        lookupField it.serialize "cEAN" = some "SEM GTIN"
        ∧ lookupField it.serialize "cEANTrib" = some "SEM GTIN") := by
  refine ⟨⟨?_, ?_, ?_⟩, ?_, ?_, ?_⟩
  · simp [Identification.serialize, fieldNames, hdate, hprint, hint]
  · simp [Identification.serialize, fieldNames, hdate, hprint, hint]
  · simp [Identification.serialize, fieldNames, hdate, hprint, hint]
  · intro hd
    cases ho : it.other_value <;>
      simp [Item.serialize, fieldNames, hd, ho]
  · intro ho
    cases hd : it.discount_value <;>
      simp [Item.serialize, fieldNames, hd, ho]
  · intro hg
    constructor <;> simp [Item.serialize, lookupField, hg, List.find?]

/-- C7 witness: the amended theorem applied to the worked identification
without optional fields and to the worked item without a GTIN. -/
theorem C7_optional_field_elision_witness :
    ("dhSaiEnt" ∉ fieldNames identNoOpts.serialize
     ∧ "tpImp" ∉ fieldNames identNoOpts.serialize
     ∧ "intermed" ∉ fieldNames identNoOpts.serialize)
    ∧ "vDesc" ∉ fieldNames itemNoGtin.serialize
    ∧ "vOutro" ∉ fieldNames itemNoGtin.serialize
    ∧ lookupField itemNoGtin.serialize "cEAN" = some "SEM GTIN" := by
  have h := C7_optional_field_elision identNoOpts itemNoGtin rfl rfl rfl
  exact ⟨h.1, h.2.1 rfl, h.2.2.1 rfl, (h.2.2.2 rfl).1⟩

/-- C8 counterexample: the optional discount field of an Item is a monetary
field but is rendered with 4 decimal digits, not 2: a discount of 40.0
encodes as the text 40.0000, while 2 decimal rendering would give 40.00. -/
theorem C8_counterexample_vDesc_four_decimals :
    lookupField itemDisc.serialize "vDesc" = some "40.0000"
    ∧ formatFixed 2 (40 : ℚ) = "40.00" := by
  constructor
  · have h1 : lookupField itemDisc.serialize "vDesc"
        = some (formatFixed 4 40) := rfl
    have h2 := formatFixed_exact 4 40 400000 (by norm_num) (by norm_num)
    rw [h1, h2]
    rfl
  · have h := formatFixed_exact 2 40 4000 (by norm_num) (by norm_num)
    rw [h]
    rfl

/-- C8 amended: every rendering of the fixed precision formatter carries
exactly prec digits after its decimal point; the F64 wrapper and the vProd
and vUnTrib fields of an Item render with 2 decimals and the quantity fields
qCom and qTrib with 4 decimals, while the optional monetary fields vDesc and
vOutro of an Item render with 4 decimals rather than 2; the value 40.0
encodes as 40.00 and a quantity of 3.0 as 3.0000. -/
theorem C8_fixed_decimal_formatting (prec : Nat) (q : ℚ) (x : F64)
    (it : Item) :
    hasDecimals prec (formatFixed prec q)
    ∧ x.serialize = formatFixed 2 x.val
    ∧ lookupField it.serialize "qCom" = some (formatFixed 4 it.quantity)
    ∧ lookupField it.serialize "vProd" = some (formatFixed 2 it.total_value)
    ∧ lookupField it.serialize "qTrib"
        = some (formatFixed 4 it.tribute_quantity)
    ∧ lookupField it.serialize "vUnTrib"
        = some (formatFixed 2 it.tribute_unit_value)
    ∧ (∀ d : ℚ, it.discount_value = some d →
        lookupField it.serialize "vDesc" = some (formatFixed 4 d))
    ∧ (∀ o : ℚ, it.other_value = some o →
        lookupField it.serialize "vOutro" = some (formatFixed 4 o))
    ∧ F64.serialize ⟨40⟩ = "40.00"
    ∧ formatFixed 4 (3 : ℚ) = "3.0000" := by
  refine ⟨?_, rfl, rfl, rfl, rfl, rfl, ?_, ?_, ?_, ?_⟩
  · exact ⟨(if q < 0 then "-" else "")
        ++ toString ((roundNearest (|q| * (10 : ℚ) ^ prec)).toNat / 10 ^ prec),
      natFixedDigits prec ((roundNearest (|q| * (10 : ℚ) ^ prec)).toNat % 10 ^ prec),
      by simp [formatFixed, String.append_assoc],
      natFixedDigits_length _ _, natFixedDigits_digits _ _⟩
  · intro d hd
    simp [Item.serialize, lookupField, List.find?, hd]
  · intro o ho
    cases hd : it.discount_value <;>
      simp [Item.serialize, lookupField, List.find?, hd, ho]
  · have h := formatFixed_exact 2 40 4000 (by norm_num) (by norm_num)
    show formatFixed 2 (40 : ℚ) = "40.00"
    rw [h]
    rfl
  · have h := formatFixed_exact 4 3 30000 (by norm_num) (by norm_num)
    rw [h]
    rfl

/-- C8 witness: the amended theorem applied to the worked item carrying a
discount of 40.0. -/
theorem C8_fixed_decimal_formatting_witness :
    lookupField itemDisc.serialize "vDesc" = some (formatFixed 4 40) :=
  ((C8_fixed_decimal_formatting 2 40 ⟨40⟩ itemDisc).2.2.2.2.2.2.1) 40 rfl

/-- C10: encoding always emits a vUnCom element carrying the quotient of the
total value by the quantity rendered with 2 decimals, with no guard on a
zero quantity (whose IEEE quotient renders as a non finite string such as
inf, as the concrete zero quantity item shows, rather than being an error);
and decoding ignores any vUnCom element entirely, so the unit value is
never stored or read back. -/
theorem C10_vUnCom_derived_and_ignored :
    (∀ it : Item, lookupField it.serialize "vUnCom" =
      some (if it.quantity = 0
            then (if 0 < it.total_value then "inf"
                  else if it.total_value < 0 then "-inf" else "NaN")
            else formatFixed 2 (it.total_value / it.quantity)))
    ∧ (∀ (fs : Fields) (v : String),
        Item.deserialize (fs ++ [("vUnCom", v)]) = Item.deserialize fs)
    ∧ lookupField itemQty0.serialize "vUnCom" = some "inf" := by
  refine ⟨fun it => rfl, ?_, ?_⟩
  · intro fs v
    unfold Item.deserialize
    rw [reqStringField_append_ne fs _ v "cProd" (by decide),
        lookupField_append_ne fs _ "cEAN" v (by decide),
        reqStringField_append_ne fs _ v "xProd" (by decide),
        reqField_append_ne fs _ v "NCM" parseU32 (by decide),
        reqField_append_ne fs _ v "CFOP" parseU32 (by decide),
        reqStringField_append_ne fs _ v "uCom" (by decide),
        reqF64Field_append_ne fs _ v "qCom" (by decide),
        reqF64Field_append_ne fs _ v "vProd" (by decide),
        reqStringField_append_ne fs _ v "uTrib" (by decide),
        reqF64Field_append_ne fs _ v "qTrib" (by decide),
        reqF64Field_append_ne fs _ v "vUnTrib" (by decide),
        lookupField_append_ne fs _ "vDesc" v (by decide),
        lookupField_append_ne fs _ "vOutro" v (by decide),
        reqField_append_ne fs _ v "indTot" parseU8 (by decide)]
  · have hq : itemQty0.quantity = 0 := rfl
    have htv : (0 : ℚ) < itemQty0.total_value := by
      have h : itemQty0.total_value = 56.97 := rfl
      rw [h]
      norm_num
    have h0 : lookupField itemQty0.serialize "vUnCom" =
        some (if itemQty0.quantity = 0
              then (if 0 < itemQty0.total_value then "inf"
                    else if itemQty0.total_value < 0 then "-inf" else "NaN")
              else formatFixed 2 (itemQty0.total_value / itemQty0.quantity)) := rfl
    rw [h0, if_pos hq, if_pos htv]

/-- C3 counterexample: the worked builder with its emission month moved to
May is perfectly balanced (payments 40.00 and 73.94 against a computed
total of 113.94), yet build does not return the assembled Info: the bare id
length assertion panics (none), so build does not return an Info exactly
when the payment sum matches the total. -/
theorem C3_counterexample_balanced_build_panics :
    |builderMonth5.paid - (Total.calculate builderMonth5).icms.total.val|
      < f64Epsilon
    ∧ builderMonth5.build = none := by
  have hp : builderMonth5.paid = 113.94 := by
    norm_num [InfoBuilder.paid, builderMonth5, workedBuilder, workedPayments]
  have ht : (Total.calculate builderMonth5).icms.total.val = 113.94 := by
    norm_num [Total.calculate, builderMonth5, workedBuilder, workedDetail,
      workedItem]
  have hbal : |builderMonth5.paid
      - (Total.calculate builderMonth5).icms.total.val| < f64Epsilon := by
    rw [hp, ht]
    norm_num [f64Epsilon]
  refine ⟨hbal, ?_⟩
  unfold InfoBuilder.build InfoBuilder.check_paid
  simp only []
  rw [if_pos hbal]
  rfl

/-- C3 amended: build returns the typed PaymentsDoNotMatchTotal error
carrying the expected total and the paid sum whenever the payment sum does
not match the computed total within the tolerance, and whenever build
returns an Info or a typed error the balance respectively held or failed;
the worked builder (payments 40.00 and 73.94, computed total 113.94)
succeeds and yields the assembled Info and the same payments against a
computed total of 100.00 fail with the error reporting both 100.00 and
113.94.  A balanced builder does not always return the Info, because the
bare id computation can panic (see the counterexample), so the success
direction holds up to that panic. -/
theorem C3_build_balance_check (b : InfoBuilder) :
    (¬ |b.paid - (Total.calculate b).icms.total.val| < f64Epsilon →
       b.build = some (.error (.PaymentsDoNotMatchTotal
         ⟨(Total.calculate b).icms.total.val, b.paid⟩)))
    ∧ (∀ info : Info, b.build = some (.ok info) →
        |b.paid - (Total.calculate b).icms.total.val| < f64Epsilon)
    ∧ (∀ e : InfoBuilderError, b.build = some (.error e) →
        ¬ |b.paid - (Total.calculate b).icms.total.val| < f64Epsilon)
    ∧ workedBuilder.build = some (.ok workedBuiltInfo)
    ∧ builder100.build = some (.error (.PaymentsDoNotMatchTotal
        ⟨100, 113.94⟩)) := by
  refine ⟨build_balance_error b, ?_, ?_, ?_, ?_⟩
  · intro info h
    by_contra hn
    rw [build_balance_error b hn] at h
    simp at h
  · intro e he hbal
    unfold InfoBuilder.build InfoBuilder.check_paid at he
    simp only [] at he
    rw [if_pos hbal] at he
    simp only [] at he
    split at he
    · simp at he
    · split at he
      · simp at he
      · simp at he
  · have hp : workedBuilder.paid = 113.94 := by
      norm_num [InfoBuilder.paid, workedBuilder, workedPayments]
    have ht : (Total.calculate workedBuilder).icms.total.val = 113.94 := by
      norm_num [Total.calculate, workedBuilder, workedDetail, workedItem]
    have hbal : |workedBuilder.paid
        - (Total.calculate workedBuilder).icms.total.val| < f64Epsilon := by
      rw [hp, ht]
      norm_num [f64Epsilon]
    unfold InfoBuilder.build InfoBuilder.check_paid
    simp only []
    rw [if_pos hbal]
    rfl
  · have hp : builder100.paid = 113.94 := by
      norm_num [InfoBuilder.paid, builder100, workedBuilder, workedPayments]
    have ht : (Total.calculate builder100).icms.total.val = 100 := by
      norm_num [Total.calculate, builder100, workedBuilder, workedDetail,
        workedItem]
    have hbal : ¬ |builder100.paid
        - (Total.calculate builder100).icms.total.val| < f64Epsilon := by
      rw [hp, ht]
      rw [abs_of_pos (show (0 : ℚ) < 113.94 - 100 by norm_num)]
      norm_num [f64Epsilon]
    rw [build_balance_error builder100 hbal, ht, hp]

/-- C3 witness: the amended theorem applied to the builder whose computed
total is 100.00 while its payments sum to 113.94. -/
theorem C3_build_balance_check_witness :
    builder100.build = some (.error (.PaymentsDoNotMatchTotal
      ⟨(Total.calculate builder100).icms.total.val, builder100.paid⟩)) := by
  apply (C3_build_balance_check builder100).1
  have hp : builder100.paid = 113.94 := by
    norm_num [InfoBuilder.paid, builder100, workedBuilder, workedPayments]
  have ht : (Total.calculate builder100).icms.total.val = 100 := by
    norm_num [Total.calculate, builder100, workedBuilder, workedDetail,
      workedItem]
  rw [hp, ht]
  rw [abs_of_pos (show (0 : ℚ) < 113.94 - 100 by norm_num)]
  norm_num [f64Epsilon]
